import Mathlib

/-!
Shallow embedding of the release-checker core of `main.py`
(vokforever/checkGithubMiners): the priority engine
(`RepositoryPriorityManager`), release history (`ReleaseHistoryManager`),
last-tag state (`ReleaseStateManager`), per-user keyword filters
(`FilterManager`), the filter matching predicate (`matches_filters`),
the notification fanout (`send_notifications`) and the per-repository
check (`check_single_repo`).

Timestamps are modelled as integers (seconds); `datetime.now` values are
threaded explicitly as `now` parameters.  Python floats become rationals.
Python dicts used only for point lookup/update (`state`, `priorities`)
become functions `String → Option _`; the filters dict, which the code
iterates over, stays an association list.  Fallible delivery is modelled
by an explicit failure oracle `Recipient → Bool`; a caught per-recipient
exception becomes "continue with the next recipient".
-/

namespace CheckGithub

/-- Constants from the configuration section of `main.py`. -/
def PRIORITY_UPDATE_DAYS : ℕ := 7

def HISTORY_DAYS : ℕ := 30

def MIN_CHECK_INTERVAL_MINUTES : ℤ := 15

def MAX_CHECK_INTERVAL_MINUTES : ℤ := 1440

def PRIORITY_THRESHOLD_HIGH : ℚ := 1/2

def PRIORITY_THRESHOLD_LOW : ℚ := 1/10

def DEFAULT_CHECK_INTERVAL_MINUTES : ℤ := 360

/-- Convert a number of days into model time units (seconds),
mirroring `timedelta(days=n)`. -/
def daysToTime (d : ℕ) : ℤ := (d : ℤ) * 86400

/-- Python `int()` applied to a non-integer number truncates toward zero. -/
def pyInt (q : ℚ) : ℤ := if 0 ≤ q then ⌊q⌋ else ⌈q⌉

/-- Python `str.lower()` (ASCII case mapping), kept kernel-computable by
working on the character list. -/
def pyLower (s : String) : String := String.mk (s.toList.map Char.toLower)

/-- Python `str.strip()`: drop leading and trailing whitespace. -/
def pyStrip (s : String) : String :=
  String.mk (((s.toList.dropWhile Char.isWhitespace).reverse.dropWhile
    Char.isWhitespace).reverse)

/-- Python `round(x, 3)`: round to 3 decimal places, half to even. -/
def pyRound3 (q : ℚ) : ℚ :=
  let n : ℤ := ⌊q * 1000⌋
  let frac : ℚ := q * 1000 - n
  (if frac < 1/2 then (n : ℚ)
   else if 1/2 < frac then (n : ℚ) + 1
   else if Even n then (n : ℚ) else (n : ℚ) + 1) / 1000

/-- An asset attached to a release (`{name, browser_download_url}`). -/
structure Asset where
  name : String
  browser_download_url : String
deriving Repr, DecidableEq

/-- A release payload as returned by the release source.  A missing
`tag_name` is modelled by the empty string (falsy in the Python code). -/
structure Release where
  tag_name : String
  name : String
  body : String
  published_at : ℤ
  assets : List Asset
deriving Repr, DecidableEq

/-- One entry of `ReleaseHistoryManager.history`. -/
structure HistoryEntry where
  repo_name : String
  tag_name : String
  name : String
  published_at : ℤ
  body : String
  assets : List Asset
deriving Repr, DecidableEq

/-- One record of `RepositoryPriorityManager.priorities`. -/
structure PriorityRecord where
  update_count : ℕ
  last_update : Option ℤ
  check_interval : ℤ
  priority_score : ℚ
  last_check : Option ℤ
  consecutive_failures : ℕ
  total_checks : ℕ
  average_response_time : ℚ
deriving Repr, DecidableEq

/-- `RepositoryPriorityManager._create_default_priority`. -/
def createDefaultPriority : PriorityRecord :=
  { update_count := 0
    last_update := none
    check_interval := DEFAULT_CHECK_INTERVAL_MINUTES
    priority_score := 0
    last_check := none
    consecutive_failures := 0
    total_checks := 0
    average_response_time := 0 }

/-- Point update of a dict modelled as a function. -/
def mapSet {α : Type} (m : String → Option α) (k : String) (v : α) :
    String → Option α :=
  fun s => if s = k then some v else m s

/-- `RepositoryPriorityManager.get_priority`: existing record or the
lazily created default. -/
def getPriorityRecord (ps : String → Option PriorityRecord) (repo : String) :
    PriorityRecord :=
  (ps repo).getD createDefaultPriority

/-- `RepositoryPriorityManager.record_update` applied to one record:
increment `update_count`, stamp `last_update`, reset
`consecutive_failures`. -/
def recordUpdate (r : PriorityRecord) (now : ℤ) : PriorityRecord :=
  { r with
    update_count := r.update_count + 1
    last_update := some now
    consecutive_failures := 0 }

/-- `RepositoryPriorityManager.record_check` applied to one record. -/
def recordCheck (r : PriorityRecord) (success : Bool) (response_time : ℚ)
    (now : ℤ) : PriorityRecord :=
  let r1 := { r with
    total_checks := r.total_checks + 1
    last_check := some now }
  if success then
    { r1 with
      consecutive_failures := 0
      average_response_time :=
        if 0 < r1.average_response_time then
          (r1.average_response_time + response_time) / 2
        else response_time }
  else
    { r1 with consecutive_failures := r1.consecutive_failures + 1 }

/-- The windowed release count of `update_priorities`: history entries of
this repository published at or after `now` minus the analysis window. -/
def windowCount (now : ℤ) (history : List HistoryEntry) (repo : String) : ℕ :=
  (history.filter (fun e =>
    e.repo_name == repo &&
      decide (now - daysToTime PRIORITY_UPDATE_DAYS ≤ e.published_at))).length

/-- The failure penalty of `update_priorities`:
`min(consecutive_failures * 0.1, 0.5)`. -/
def failurePenalty (consecutive_failures : ℕ) : ℚ :=
  min ((consecutive_failures : ℚ) * (1/10)) (1/2)

/-- The adjusted score of `update_priorities`:
`max(0, priority_score - failure_penalty)`. -/
def adjustedScoreOf (raw : ℚ) (consecutive_failures : ℕ) : ℚ :=
  max 0 (raw - failurePenalty consecutive_failures)

/-- The score-to-interval mapping of `update_priorities`.  Note the
`int(...)` truncation in the interpolation branch. -/
def computeCheckInterval (adjusted_score : ℚ) : ℤ :=
  if PRIORITY_THRESHOLD_HIGH ≤ adjusted_score then MIN_CHECK_INTERVAL_MINUTES
  else if adjusted_score ≤ PRIORITY_THRESHOLD_LOW then MAX_CHECK_INTERVAL_MINUTES
  else
    let ratio := (adjusted_score - PRIORITY_THRESHOLD_LOW) /
      (PRIORITY_THRESHOLD_HIGH - PRIORITY_THRESHOLD_LOW)
    pyInt ((MAX_CHECK_INTERVAL_MINUTES : ℚ) -
      ratio * ((MAX_CHECK_INTERVAL_MINUTES : ℚ) - (MIN_CHECK_INTERVAL_MINUTES : ℚ)))

/-- The body of the `for repo in REPOS` loop of
`RepositoryPriorityManager.update_priorities`: recompute one repository's
record from the history and its existing record. -/
def updatePriorityRecord (now : ℤ) (history : List HistoryEntry)
    (repo : String) (existing : PriorityRecord) : PriorityRecord :=
  let update_count := windowCount now history repo
  let priority_score : ℚ := (update_count : ℚ) / (PRIORITY_UPDATE_DAYS : ℚ)
  let adjusted_score := adjustedScoreOf priority_score existing.consecutive_failures
  { existing with
    update_count := update_count
    check_interval := computeCheckInterval adjusted_score
    priority_score := pyRound3 adjusted_score }

/-- `RepositoryPriorityManager.update_priorities`: fold the per-repository
recomputation over the configured repository list. -/
def updatePriorities (now : ℤ) (repos : List String)
    (history : List HistoryEntry) (ps : String → Option PriorityRecord) :
    String → Option PriorityRecord :=
  repos.foldl
    (fun m repo =>
      mapSet m repo (updatePriorityRecord now history repo (getPriorityRecord m repo)))
    ps

/-- The age-based pruning performed by `ReleaseHistoryManager._save_history`:
keep entries published within the retention window. -/
def pruneHistory (now : ℤ) (history : List HistoryEntry) : List HistoryEntry :=
  history.filter (fun e => decide (now - daysToTime HISTORY_DAYS ≤ e.published_at))

/-- The history entry built by `ReleaseHistoryManager.add_release`. -/
def mkHistoryEntry (repo : String) (release : Release) : HistoryEntry :=
  { repo_name := repo
    tag_name := release.tag_name
    name := release.name
    published_at := release.published_at
    body := release.body
    assets := release.assets }

/-- `ReleaseHistoryManager.add_release`: no-op on a duplicate
(repo, tag) pair, otherwise append and save (which prunes by age).
Returns the new history and whether an entry was added. -/
def addRelease (now : ℤ) (history : List HistoryEntry) (repo : String)
    (release : Release) : List HistoryEntry × Bool :=
  if history.any (fun e => e.repo_name == repo && e.tag_name == release.tag_name) then
    (history, false)
  else
    (pruneHistory now (history ++ [mkHistoryEntry repo release]), true)

/-- `ReleaseStateManager.get_last_tag`. -/
def getLastTag (state : String → Option String) (repo : String) : Option String :=
  state repo

/-- `ReleaseStateManager.update_tag`. -/
def updateTag (state : String → Option String) (repo tag : String) :
    String → Option String :=
  mapSet state repo tag

/-- `FilterManager.set_filters`: normalise the keywords (strip, drop
empties, lowercase); store them only when the normalised list is
non-empty, otherwise leave the store untouched. -/
def setFilters (filters : List (String × List String)) (user_id : String)
    (keywords : List String) : List (String × List String) :=
  let normalized :=
    (keywords.filter (fun k => !(pyStrip k == ""))).map (fun k => pyLower (pyStrip k))
  if normalized.isEmpty then filters
  else if filters.any (fun p => p.1 == user_id) then
    filters.map (fun p => if p.1 == user_id then (user_id, normalized) else p)
  else filters ++ [(user_id, normalized)]

/-- `FilterManager.get_filters`. -/
def getFilters (filters : List (String × List String)) (user_id : String) :
    List String :=
  ((filters.find? (fun p => p.1 == user_id)).map (fun p => p.2)).getD []

/-- `FilterManager.clear_filters`. -/
def clearFilters (filters : List (String × List String)) (user_id : String) :
    List (String × List String) :=
  filters.filter (fun p => !(p.1 == user_id))

/-- The search text built by `matches_filters`: name, tag and body,
then the asset names, joined by single spaces and lowercased. -/
def searchText (release : Release) : String :=
  pyLower (String.intercalate " "
    ([release.name, release.tag_name, release.body] ++
      release.assets.map (fun a => a.name)))

/-- `matches_filters`: empty keyword list always matches; otherwise every
keyword, lowercased, must occur as a substring of the search text. -/
def matches_filters (release : Release) (keywords : List String) : Bool :=
  if keywords.isEmpty then true
  else keywords.all (fun k =>
    decide ((pyLower k).toList <:+: (searchText release).toList))

/-- A notification recipient: a user or the broadcast channel. -/
inductive Recipient where
  | user (id : ℕ)
  | channel (id : ℤ)
deriving Repr, DecidableEq

/-- The recipient environment of `send_notifications`: the active users,
the per-user filters (`filter_manager.filters`, user ids already parsed)
and the optional broadcast channel. -/
structure FanoutEnv where
  activeUsers : List ℕ
  filters : List (ℕ × List String)
  channelId : Option ℤ

/-- One delivery attempt of `send_notifications`: append the recipient to
the attempt list and count a success unless the oracle fails the send
(the Python code catches the per-recipient exception and continues). -/
def attemptSend (fails : Recipient → Bool) (acc : List Recipient × ℕ)
    (r : Recipient) : List Recipient × ℕ :=
  if fails r then (acc.1 ++ [r], acc.2)
  else (acc.1 ++ [r], acc.2 + 1)

/-- `send_notifications`: filtered active users whose filters match, then
active users without filters, then the broadcast channel.  Returns the
list of attempted recipients and the number of successful sends. -/
def sendNotifications (env : FanoutEnv) (release : Release)
    (fails : Recipient → Bool) : List Recipient × ℕ :=
  let s1 := env.filters.foldl
    (fun acc p =>
      if env.activeUsers.contains p.1 then
        if matches_filters release p.2 then
          attemptSend fails acc (Recipient.user p.1)
        else acc
      else acc)
    ([], 0)
  let withFilters := env.filters.map (fun p => p.1)
  let s2 := (env.activeUsers.filter (fun u => !(withFilters.contains u))).foldl
    (fun acc u => attemptSend fails acc (Recipient.user u)) s1
  match env.channelId with
  | some c => attemptSend fails s2 (Recipient.channel c)
  | none => s2

/-- The recipients `send_notifications` is specified to attempt:
matching active filtered users, all active unfiltered users, and the
configured channel. -/
def eligibleRecipients (env : FanoutEnv) (release : Release) : List Recipient :=
  (env.filters.filter
      (fun p => env.activeUsers.contains p.1 && matches_filters release p.2)).map
    (fun p => Recipient.user p.1)
  ++ (env.activeUsers.filter
        (fun u => !((env.filters.map (fun p => p.1)).contains u))).map Recipient.user
  ++ (match env.channelId with
      | some c => [Recipient.channel c]
      | none => [])

/-- The externally visible steps of `check_single_repo`, in execution
order. -/
inductive Event where
  | recordCheck (repo : String) (success : Bool)
  | historyAdd (repo tag : String)
  | recordUpdate (repo : String)
  | fanout (repo tag : String)
  | stateUpdate (repo tag : String)
deriving Repr, DecidableEq

/-- The core mutable state touched by `check_single_repo`: last-seen tags,
release history and priority records. -/
structure BotState where
  stateTags : String → Option String
  history : List HistoryEntry
  priorities : String → Option PriorityRecord

/-- `check_single_repo` for one repository, given the fetched release (or
`none` on fetch failure) and its response time.  Returns the new state,
whether a novel release was processed, and the emitted event trace. -/
def checkSingleRepo (now : ℤ) (st : BotState) (repo : String)
    (fetched : Option Release) (response_time : ℚ) :
    BotState × Bool × List Event :=
  let success := fetched.isSome
  let st1 : BotState := { st with
    priorities := mapSet st.priorities repo
      (recordCheck (getPriorityRecord st.priorities repo) success response_time now) }
  match fetched with
  | none => (st1, false, [Event.recordCheck repo false])
  | some release =>
    if release.tag_name = "" then (st1, false, [Event.recordCheck repo true])
    else if getLastTag st1.stateTags repo ≠ some release.tag_name then
      let st2 : BotState :=
        { st1 with history := (addRelease now st1.history repo release).1 }
      let st3 : BotState := { st2 with
        priorities := mapSet st2.priorities repo
          (recordUpdate (getPriorityRecord st2.priorities repo) now) }
      let st4 : BotState :=
        { st3 with stateTags := updateTag st3.stateTags repo release.tag_name }
      (st4, true,
        [Event.recordCheck repo true,
         Event.historyAdd repo release.tag_name,
         Event.recordUpdate repo,
         Event.fanout repo release.tag_name,
         Event.stateUpdate repo release.tag_name])
    else (st1, false, [Event.recordCheck repo true])

/-- The state reached when the process is killed right after
`history_manager.add_release` inside the novel branch of
`check_single_repo`: the check was recorded and the history entry added,
but neither the priority update nor the state-tag update has happened. -/
def stateAfterHistoryAdd (now : ℤ) (st : BotState) (repo : String)
    (release : Release) (response_time : ℚ) : BotState :=
  let st1 : BotState := { st with
    priorities := mapSet st.priorities repo
      (recordCheck (getPriorityRecord st.priorities repo) true response_time now) }
  { st1 with history := (addRelease now st1.history repo release).1 }

/-- Count of history entries for a given (repo, tag) pair. -/
def countRelease (history : List HistoryEntry) (repo tag : String) : ℕ :=
  (history.filter (fun e => e.repo_name == repo && e.tag_name == tag)).length

/-- Count of fanout events in a trace. -/
def countFanouts (events : List Event) : ℕ :=
  (events.filter (fun e =>
    match e with
    | Event.fanout _ _ => true
    | _ => false)).length

/-- The search text the claim about filter matching describes: the plain
concatenation of name, tag and body (no separators, no asset names). -/
def claimSearchText (release : Release) : String :=
  pyLower (release.name ++ release.tag_name ++ release.body)

/-- The real-valued score-to-interval mapping the claim about the
recalculation describes: no integer truncation in the interpolation
branch. -/
def claimInterval (adjusted_score : ℚ) : ℚ :=
  if PRIORITY_THRESHOLD_HIGH ≤ adjusted_score then (MIN_CHECK_INTERVAL_MINUTES : ℚ)
  else if adjusted_score ≤ PRIORITY_THRESHOLD_LOW then (MAX_CHECK_INTERVAL_MINUTES : ℚ)
  else
    (MAX_CHECK_INTERVAL_MINUTES : ℚ) -
      (adjusted_score - PRIORITY_THRESHOLD_LOW) /
        (PRIORITY_THRESHOLD_HIGH - PRIORITY_THRESHOLD_LOW) *
      ((MAX_CHECK_INTERVAL_MINUTES : ℚ) - (MIN_CHECK_INTERVAL_MINUTES : ℚ))


theorem pyInt_eq_floor {q : ℚ} (h : 0 ≤ q) : pyInt q = ⌊q⌋ := if_pos h

theorem computeCheckInterval_min_le (s : ℚ) :
    MIN_CHECK_INTERVAL_MINUTES ≤ computeCheckInterval s := by
  simp only [computeCheckInterval, PRIORITY_THRESHOLD_HIGH, PRIORITY_THRESHOLD_LOW,
    MIN_CHECK_INTERVAL_MINUTES, MAX_CHECK_INTERVAL_MINUTES]
  split_ifs with h1 h2
  · exact le_refl _
  · norm_num
  · push_neg at h1 h2
    push_cast
    have hr1 : (s - 1/10) / ((1:ℚ)/2 - 1/10) < 1 := by
      rw [div_lt_one (by norm_num)]
      linarith
    have hr0 : (0:ℚ) ≤ (s - 1/10) / ((1:ℚ)/2 - 1/10) :=
      div_nonneg (by linarith) (by norm_num)
    have hx15 : (15:ℚ) ≤ (1440:ℚ) - (s - 1/10) / ((1:ℚ)/2 - 1/10) * ((1440:ℚ) - 15) := by
      nlinarith
    have hx0 : (0:ℚ) ≤ (1440:ℚ) - (s - 1/10) / ((1:ℚ)/2 - 1/10) * ((1440:ℚ) - 15) := by
      linarith
    rw [pyInt_eq_floor hx0]
    exact Int.le_floor.mpr (by exact_mod_cast hx15)

theorem computeCheckInterval_le_max (s : ℚ) :
    computeCheckInterval s ≤ MAX_CHECK_INTERVAL_MINUTES := by
  simp only [computeCheckInterval, PRIORITY_THRESHOLD_HIGH, PRIORITY_THRESHOLD_LOW,
    MIN_CHECK_INTERVAL_MINUTES, MAX_CHECK_INTERVAL_MINUTES]
  split_ifs with h1 h2
  · norm_num
  · exact le_refl _
  · push_neg at h1 h2
    push_cast
    have hr1 : (s - 1/10) / ((1:ℚ)/2 - 1/10) < 1 := by
      rw [div_lt_one (by norm_num)]
      linarith
    have hr0 : (0:ℚ) ≤ (s - 1/10) / ((1:ℚ)/2 - 1/10) :=
      div_nonneg (by linarith) (by norm_num)
    have hx : (1440:ℚ) - (s - 1/10) / ((1:ℚ)/2 - 1/10) * ((1440:ℚ) - 15) ≤ (1440:ℚ) := by
      nlinarith
    have hx0 : (0:ℚ) ≤ (1440:ℚ) - (s - 1/10) / ((1:ℚ)/2 - 1/10) * ((1440:ℚ) - 15) := by
      nlinarith
    rw [pyInt_eq_floor hx0]
    calc ⌊(1440:ℚ) - (s - 1/10) / ((1:ℚ)/2 - 1/10) * ((1440:ℚ) - 15)⌋
        ≤ ⌊(1440:ℚ)⌋ := Int.floor_mono hx
      _ = 1440 := by norm_num

theorem computeCheckInterval_anti {s₁ s₂ : ℚ} (h : s₁ ≤ s₂) :
    computeCheckInterval s₂ ≤ computeCheckInterval s₁ := by
  by_cases h2h : PRIORITY_THRESHOLD_HIGH ≤ s₂
  · have e2 : computeCheckInterval s₂ = MIN_CHECK_INTERVAL_MINUTES := by
      simp [computeCheckInterval, h2h]
    rw [e2]
    exact computeCheckInterval_min_le s₁
  · by_cases h2l : s₂ ≤ PRIORITY_THRESHOLD_LOW
    · have h1l : s₁ ≤ PRIORITY_THRESHOLD_LOW := le_trans h h2l
      have h1h : ¬ PRIORITY_THRESHOLD_HIGH ≤ s₁ := by
        simp only [PRIORITY_THRESHOLD_HIGH, PRIORITY_THRESHOLD_LOW] at *
        intro hc
        linarith
      simp [computeCheckInterval, h1h, h2h, h1l, h2l]
    · by_cases h1h : PRIORITY_THRESHOLD_HIGH ≤ s₁
      · exact absurd (le_trans h1h h) h2h
      · by_cases h1l : s₁ ≤ PRIORITY_THRESHOLD_LOW
        · have e1 : computeCheckInterval s₁ = MAX_CHECK_INTERVAL_MINUTES := by
            simp [computeCheckInterval, h1h, h1l]
          rw [e1]
          exact computeCheckInterval_le_max s₂
        · push_neg at h1h h1l h2h h2l
          simp only [PRIORITY_THRESHOLD_HIGH, PRIORITY_THRESHOLD_LOW] at h1h h1l h2h h2l
          simp only [computeCheckInterval, PRIORITY_THRESHOLD_HIGH, PRIORITY_THRESHOLD_LOW,
            MIN_CHECK_INTERVAL_MINUTES, MAX_CHECK_INTERVAL_MINUTES]
          push_cast
          rw [if_neg (not_le.mpr h2h), if_neg (not_le.mpr h2l),
            if_neg (not_le.mpr h1h), if_neg (not_le.mpr h1l)]
          have hr : (s₁ - 1/10) / ((1:ℚ)/2 - 1/10) ≤ (s₂ - 1/10) / ((1:ℚ)/2 - 1/10) :=
            div_le_div_of_nonneg_right (by linarith) (by norm_num)
          have hr11 : (s₁ - 1/10) / ((1:ℚ)/2 - 1/10) < 1 := by
            rw [div_lt_one (by norm_num)]
            linarith
          have hr12 : (s₂ - 1/10) / ((1:ℚ)/2 - 1/10) < 1 := by
            rw [div_lt_one (by norm_num)]
            linarith
          have hr01 : (0:ℚ) ≤ (s₁ - 1/10) / ((1:ℚ)/2 - 1/10) :=
            div_nonneg (by linarith) (by norm_num)
          have hx1 : (0:ℚ) ≤ (1440:ℚ) - (s₁ - 1/10) / ((1:ℚ)/2 - 1/10) * ((1440:ℚ) - 15) := by
            nlinarith
          have hx2 : (0:ℚ) ≤ (1440:ℚ) - (s₂ - 1/10) / ((1:ℚ)/2 - 1/10) * ((1440:ℚ) - 15) := by
            nlinarith
          rw [pyInt_eq_floor hx1, pyInt_eq_floor hx2]
          apply Int.floor_mono
          nlinarith

theorem attemptSend_fst (fails : Recipient → Bool) (acc : List Recipient × ℕ)
    (r : Recipient) : (attemptSend fails acc r).1 = acc.1 ++ [r] := by
  unfold attemptSend
  split <;> rfl

theorem fanout_phase1_fst (fails : Recipient → Bool) (release : Release)
    (active : List ℕ) (l : List (ℕ × List String)) (acc : List Recipient × ℕ) :
    (l.foldl
      (fun acc p =>
        if active.contains p.1 then
          if matches_filters release p.2 then
            attemptSend fails acc (Recipient.user p.1)
          else acc
        else acc) acc).1 =
    acc.1 ++ (l.filter
      (fun p => active.contains p.1 && matches_filters release p.2)).map
        (fun p => Recipient.user p.1) := by
  induction l generalizing acc with
  | nil => simp
  | cons p l ih =>
    rw [List.foldl_cons, List.filter_cons]
    cases hc : active.contains p.1 with
    | false =>
      rw [if_neg (by simp [hc]), ih]
      simp [hc]
    | true =>
      cases hm : matches_filters release p.2 with
      | false =>
        rw [if_pos (by simp [hc]), if_neg (by simp [hm]), ih]
        simp [hc, hm]
      | true =>
        rw [if_pos (by simp [hc]), if_pos (by simp [hm]), ih, attemptSend_fst]
        simp [hc, hm]

theorem fanout_phase2_fst (fails : Recipient → Bool) (users : List ℕ)
    (acc : List Recipient × ℕ) :
    (users.foldl (fun acc u => attemptSend fails acc (Recipient.user u)) acc).1 =
    acc.1 ++ users.map Recipient.user := by
  induction users generalizing acc with
  | nil => simp
  | cons u users ih => simp [List.foldl_cons, ih, attemptSend_fst]

/-- C9: the list of recipients `send_notifications` attempts is the same
for every pattern of per-recipient send failures — a failed send is caught
and the fanout continues, so every eligible recipient (matching active
filtered users, all active unfiltered users, and the broadcast channel)
still gets a send attempt. -/
theorem spec_C9_fanout_isolation (env : FanoutEnv) (release : Release)
    (fails : Recipient → Bool) :
    (sendNotifications env release fails).1 = eligibleRecipients env release ∧
    (sendNotifications env release fails).1 =
      (sendNotifications env release (fun _ => false)).1 := by
  have key : ∀ g : Recipient → Bool,
      (sendNotifications env release g).1 = eligibleRecipients env release := by
    intro g
    unfold sendNotifications eligibleRecipients
    cases env.channelId with
    | none =>
      rw [fanout_phase2_fst, fanout_phase1_fst]
      simp
    | some c =>
      rw [attemptSend_fst, fanout_phase2_fst, fanout_phase1_fst]
      simp
  exact ⟨key fails, (key fails).trans (key (fun _ => false)).symm⟩

theorem getPriorityRecord_mapSet_self (ps : String → Option PriorityRecord)
    (repo : String) (r : PriorityRecord) :
    getPriorityRecord (mapSet ps repo r) repo = r := by
  simp [getPriorityRecord, mapSet]

theorem getLastTag_updateTag_self (state : String → Option String)
    (repo tag : String) :
    getLastTag (updateTag state repo tag) repo = some tag := by
  simp [getLastTag, updateTag, mapSet]

theorem recordCheck_update_count (r : PriorityRecord) (success : Bool)
    (rt : ℚ) (now : ℤ) :
    (recordCheck r success rt now).update_count = r.update_count := by
  cases success <;> simp [recordCheck]

theorem addRelease_of_not_present {history : List HistoryEntry} {repo : String}
    {r : Release} (h : countRelease history repo r.tag_name = 0) (now : ℤ) :
    addRelease now history repo r =
      (pruneHistory now (history ++ [mkHistoryEntry repo r]), true) := by
  unfold addRelease
  rw [if_neg ?empty]
  case empty =>
    intro hc
    rw [List.any_eq_true] at hc
    obtain ⟨e, he, hfe⟩ := hc
    have hnil : history.filter
        (fun e => e.repo_name == repo && e.tag_name == r.tag_name) = [] :=
      List.length_eq_zero.mp h
    exact (List.filter_eq_nil_iff.mp hnil e he) hfe

theorem countRelease_append (h₁ h₂ : List HistoryEntry) (repo tag : String) :
    countRelease (h₁ ++ h₂) repo tag =
      countRelease h₁ repo tag + countRelease h₂ repo tag := by
  simp [countRelease, List.filter_append]

theorem countRelease_prune_le (now : ℤ) (history : List HistoryEntry)
    (repo tag : String) :
    countRelease (pruneHistory now history) repo tag ≤
      countRelease history repo tag := by
  unfold countRelease pruneHistory
  exact List.Sublist.length_le (List.Sublist.filter _ (List.filter_sublist _))

theorem checkSingleRepo_novel (now : ℤ) (st : BotState) (repo : String)
    (r : Release) (rt : ℚ) (htag : r.tag_name ≠ "")
    (hnovel : getLastTag st.stateTags repo ≠ some r.tag_name) :
    checkSingleRepo now st repo (some r) rt =
      (⟨updateTag st.stateTags repo r.tag_name,
        (addRelease now st.history repo r).1,
        mapSet (mapSet st.priorities repo
            (recordCheck (getPriorityRecord st.priorities repo) true rt now)) repo
          (recordUpdate (getPriorityRecord (mapSet st.priorities repo
            (recordCheck (getPriorityRecord st.priorities repo) true rt now)) repo)
            now)⟩,
       true,
       [Event.recordCheck repo true, Event.historyAdd repo r.tag_name,
        Event.recordUpdate repo, Event.fanout repo r.tag_name,
        Event.stateUpdate repo r.tag_name]) := by
  simp only [checkSingleRepo, Option.isSome]
  rw [if_neg htag, if_pos hnovel]

theorem checkSingleRepo_not_novel (now : ℤ) (st : BotState) (repo : String)
    (r : Release) (rt : ℚ) (htag : r.tag_name ≠ "")
    (hsame : getLastTag st.stateTags repo = some r.tag_name) :
    checkSingleRepo now st repo (some r) rt =
      (⟨st.stateTags, st.history,
        mapSet st.priorities repo
          (recordCheck (getPriorityRecord st.priorities repo) true rt now)⟩,
       false, [Event.recordCheck repo true]) := by
  simp only [checkSingleRepo, Option.isSome]
  rw [if_neg htag, if_neg (by simp [hsame])]

theorem pruneHistory_append (now : ℤ) (h₁ h₂ : List HistoryEntry) :
    pruneHistory now (h₁ ++ h₂) = pruneHistory now h₁ ++ pruneHistory now h₂ := by
  simp [pruneHistory, List.filter_append]

theorem countRelease_after_add (now : ℤ) (history : List HistoryEntry)
    (repo : String) (r : Release)
    (hnodup : countRelease history repo r.tag_name = 0)
    (hfresh : now - daysToTime HISTORY_DAYS ≤ r.published_at) :
    countRelease (addRelease now history repo r).1 repo r.tag_name = 1 := by
  rw [addRelease_of_not_present hnodup now]
  simp only [pruneHistory_append, countRelease_append]
  have h0 : countRelease (pruneHistory now history) repo r.tag_name = 0 :=
    Nat.le_zero.mp (le_trans (countRelease_prune_le now history repo r.tag_name)
      (le_of_eq hnodup))
  rw [h0]
  have hfresh2 : now ≤ r.published_at + daysToTime HISTORY_DAYS := by linarith
  simp [pruneHistory, countRelease, mkHistoryEntry, hfresh2]

/-- C1: checking a repository twice while the upstream source returns
the same (novel, fresh) latest tag processes the release once: the first
call fires as novel, the second is a no-op (returns false, leaves history
and the repository's `update_count` unchanged), exactly one history entry
for (repo, tag) exists afterwards and exactly one fanout event is emitted
across both calls; and a first-ever check with no stored tag always fires
as novel. -/
theorem spec_C1_idempotent_detection (now now' : ℤ) (st : BotState)
    (repo : String) (r : Release) (rt rt' : ℚ)
    (htag : r.tag_name ≠ "")
    (hnovel : getLastTag st.stateTags repo ≠ some r.tag_name)
    (hnodup : countRelease st.history repo r.tag_name = 0)
    (hfresh : now - daysToTime HISTORY_DAYS ≤ r.published_at) :
    (checkSingleRepo now st repo (some r) rt).2.1 = true ∧
    (checkSingleRepo now' (checkSingleRepo now st repo (some r) rt).1 repo
      (some r) rt').2.1 = false ∧
    countRelease (checkSingleRepo now' (checkSingleRepo now st repo (some r) rt).1
      repo (some r) rt').1.history repo r.tag_name = 1 ∧
    (checkSingleRepo now' (checkSingleRepo now st repo (some r) rt).1 repo
      (some r) rt').1.history = (checkSingleRepo now st repo (some r) rt).1.history ∧
    countFanouts ((checkSingleRepo now st repo (some r) rt).2.2 ++
      (checkSingleRepo now' (checkSingleRepo now st repo (some r) rt).1 repo
        (some r) rt').2.2) = 1 ∧
    (getPriorityRecord (checkSingleRepo now' (checkSingleRepo now st repo
      (some r) rt).1 repo (some r) rt').1.priorities repo).update_count =
      (getPriorityRecord (checkSingleRepo now st repo (some r) rt).1.priorities
        repo).update_count ∧
    (∀ st' : BotState, getLastTag st'.stateTags repo = none →
      (checkSingleRepo now st' repo (some r) rt).2.1 = true) := by
  have e1 := checkSingleRepo_novel now st repo r rt htag hnovel
  have hsame : getLastTag (checkSingleRepo now st repo (some r) rt).1.stateTags
      repo = some r.tag_name := by
    rw [e1]
    exact getLastTag_updateTag_self _ _ _
  have e2 := checkSingleRepo_not_novel now'
    ((checkSingleRepo now st repo (some r) rt).1) repo r rt' htag hsame
  have hhist2 : (checkSingleRepo now' (checkSingleRepo now st repo (some r) rt).1
      repo (some r) rt').1.history =
      (checkSingleRepo now st repo (some r) rt).1.history := by
    rw [e2]
  have hhist1 : (checkSingleRepo now st repo (some r) rt).1.history =
      (addRelease now st.history repo r).1 := by
    rw [e1]
  refine ⟨by rw [e1], by rw [e2], ?_, hhist2, ?_, ?_, ?_⟩
  · rw [hhist2, hhist1]
    exact countRelease_after_add now st.history repo r hnodup hfresh
  · have t1 : (checkSingleRepo now st repo (some r) rt).2.2 =
        [Event.recordCheck repo true, Event.historyAdd repo r.tag_name,
         Event.recordUpdate repo, Event.fanout repo r.tag_name,
         Event.stateUpdate repo r.tag_name] := by
      rw [e1]
    have t2 : (checkSingleRepo now' (checkSingleRepo now st repo (some r) rt).1
        repo (some r) rt').2.2 = [Event.recordCheck repo true] := by
      rw [e2]
    rw [t1, t2]
    simp [countFanouts]
  · have hp2 : (checkSingleRepo now' (checkSingleRepo now st repo (some r) rt).1
        repo (some r) rt').1.priorities =
        mapSet (checkSingleRepo now st repo (some r) rt).1.priorities repo
          (recordCheck (getPriorityRecord
            (checkSingleRepo now st repo (some r) rt).1.priorities repo)
            true rt' now') := by
      rw [e2]
    rw [hp2, getPriorityRecord_mapSet_self, recordCheck_update_count]
  · intro st' h0
    have hn : getLastTag st'.stateTags repo ≠ some r.tag_name := by
      rw [h0]
      exact fun hc => Option.noConfusion hc
    rw [checkSingleRepo_novel now st' repo r rt htag hn]

theorem spec_C1_witness :
    (("v1" : String) ≠ "") ∧
    (getLastTag (⟨fun _ => none, [], fun _ => none⟩ : BotState).stateTags "o/r" ≠
      some "v1") ∧
    (countRelease (⟨fun _ => none, [], fun _ => none⟩ : BotState).history
      "o/r" "v1" = 0) ∧
    ((0:ℤ) - daysToTime HISTORY_DAYS ≤ (0:ℤ)) ∧
    (checkSingleRepo 0 (⟨fun _ => none, [], fun _ => none⟩ : BotState) "o/r"
      (some ⟨"v1", "rel", "", 0, []⟩) 0).2.1 = true :=
  ⟨by decide, by decide, by decide, by decide,
    (spec_C1_idempotent_detection 0 0 ⟨fun _ => none, [], fun _ => none⟩ "o/r"
      ⟨"v1", "rel", "", 0, []⟩ 0 0 (by decide) (by decide) (by decide)
      (by decide)).1⟩

/-- C2: in the novel branch of `check_single_repo` the steps run in the
order history add, priority `record_update`, notification fanout, state
tag update (with the check recording first); and if the process is killed
after the history add but before the state-tag update, the next check of
the same tag re-detects it as novel and fans out again — at-least-once
delivery, not exactly-once. -/
theorem spec_C2_order_and_at_least_once (now now' : ℤ) (st : BotState)
    (repo : String) (r : Release) (rt rt' : ℚ)
    (htag : r.tag_name ≠ "")
    (hnovel : getLastTag st.stateTags repo ≠ some r.tag_name) :
    (checkSingleRepo now st repo (some r) rt).2.2 =
      [Event.recordCheck repo true, Event.historyAdd repo r.tag_name,
       Event.recordUpdate repo, Event.fanout repo r.tag_name,
       Event.stateUpdate repo r.tag_name] ∧
    (checkSingleRepo now' (stateAfterHistoryAdd now st repo r rt) repo
      (some r) rt').2.1 = true ∧
    Event.fanout repo r.tag_name ∈
      (checkSingleRepo now' (stateAfterHistoryAdd now st repo r rt) repo
        (some r) rt').2.2 := by
  have e1 := checkSingleRepo_novel now st repo r rt htag hnovel
  have hcr : getLastTag (stateAfterHistoryAdd now st repo r rt).stateTags repo ≠
      some r.tag_name := by
    simpa [stateAfterHistoryAdd, getLastTag] using hnovel
  have e2 := checkSingleRepo_novel now' (stateAfterHistoryAdd now st repo r rt)
    repo r rt' htag hcr
  refine ⟨by rw [e1], by rw [e2], ?_⟩
  rw [e2]
  simp

theorem spec_C2_witness :
    (("v1" : String) ≠ "") ∧
    (getLastTag (⟨fun _ => none, [], fun _ => none⟩ : BotState).stateTags "o/r" ≠
      some "v1") ∧
    (checkSingleRepo 0 (⟨fun _ => none, [], fun _ => none⟩ : BotState) "o/r"
      (some ⟨"v1", "rel", "", 0, []⟩) 0).2.2 =
      [Event.recordCheck "o/r" true, Event.historyAdd "o/r" "v1",
       Event.recordUpdate "o/r", Event.fanout "o/r" "v1",
       Event.stateUpdate "o/r" "v1"] :=
  ⟨by decide, by decide,
    (spec_C2_order_and_at_least_once 0 0 ⟨fun _ => none, [], fun _ => none⟩
      "o/r" ⟨"v1", "rel", "", 0, []⟩ 0 0 (by decide) (by decide)).1⟩

/-- C3 counterexample: with two in-window releases and no failures the
adjusted score is 2/7, for which the recalculation stores `check_interval
= 778`, while the claimed real-valued interpolation formula yields
21795/28 = 778.39…, so the claim's "otherwise the linear interpolation"
clause is false as stated: the code truncates with `int()`. -/
theorem spec_C3_counterexample :
    (updatePriorityRecord 1000000
      [⟨"o/r", "v1", "r1", 999999, "", []⟩, ⟨"o/r", "v2", "r2", 999998, "", []⟩]
      "o/r" createDefaultPriority).check_interval = 778 ∧
    adjustedScoreOf ((windowCount 1000000
      [⟨"o/r", "v1", "r1", 999999, "", []⟩, ⟨"o/r", "v2", "r2", 999998, "", []⟩]
      "o/r" : ℚ) / (PRIORITY_UPDATE_DAYS : ℚ)) 0 = 2/7 ∧
    claimInterval ((2:ℚ)/7) = 21795/28 ∧
    ((778:ℚ) ≠ 21795/28) := by
  have hw : windowCount 1000000
      [⟨"o/r", "v1", "r1", 999999, "", []⟩, ⟨"o/r", "v2", "r2", 999998, "", []⟩]
      "o/r" = 2 := by decide
  refine ⟨?_, ?_, ?_, by norm_num⟩
  · simp only [updatePriorityRecord, hw]
    norm_num [adjustedScoreOf, failurePenalty, createDefaultPriority, computeCheckInterval,
      PRIORITY_UPDATE_DAYS, PRIORITY_THRESHOLD_HIGH, PRIORITY_THRESHOLD_LOW,
      MIN_CHECK_INTERVAL_MINUTES, MAX_CHECK_INTERVAL_MINUTES, pyInt]
  · rw [hw]
    norm_num [adjustedScoreOf, failurePenalty, PRIORITY_UPDATE_DAYS]
  · norm_num [claimInterval, PRIORITY_THRESHOLD_HIGH, PRIORITY_THRESHOLD_LOW,
      MIN_CHECK_INTERVAL_MINUTES, MAX_CHECK_INTERVAL_MINUTES]

/-- C3 (amended): the recalculation computes the raw score as the
windowed release count divided by the 7-day window, subtracts the penalty
`min(consecutiveFailures * 0.1, 0.5)` clamped at zero, and maps the
adjusted score to MIN when it is ≥ HIGH_THRESHOLD, MAX when ≤
LOW_THRESHOLD, and otherwise to the **integer truncation** of the linear
interpolation `MAX - ratio * (MAX - MIN)`; the two concrete scenarios
(0.6 ↦ MIN exactly, 0.05 ↦ MAX exactly) hold. -/
theorem spec_C3_interval_formula (now : ℤ) (history : List HistoryEntry)
    (repo : String) (existing : PriorityRecord) :
    ((updatePriorityRecord now history repo existing).check_interval =
      (let raw : ℚ := (windowCount now history repo : ℚ) / 7
       let penalty : ℚ := min ((existing.consecutive_failures : ℚ) * (1/10)) (1/2)
       let adjusted : ℚ := max 0 (raw - penalty)
       if (1:ℚ)/2 ≤ adjusted then 15
       else if adjusted ≤ (1:ℚ)/10 then 1440
       else pyInt ((1440:ℚ) - (adjusted - 1/10) / ((1:ℚ)/2 - 1/10) * ((1440:ℚ) - 15))))
    ∧ computeCheckInterval ((6:ℚ)/10) = MIN_CHECK_INTERVAL_MINUTES
    ∧ computeCheckInterval ((5:ℚ)/100) = MAX_CHECK_INTERVAL_MINUTES := by
  refine ⟨?_, ?_, ?_⟩
  · simp only [updatePriorityRecord, computeCheckInterval, adjustedScoreOf, failurePenalty,
      PRIORITY_UPDATE_DAYS, PRIORITY_THRESHOLD_HIGH, PRIORITY_THRESHOLD_LOW,
      MIN_CHECK_INTERVAL_MINUTES, MAX_CHECK_INTERVAL_MINUTES]
    norm_num
  · norm_num [computeCheckInterval, PRIORITY_THRESHOLD_HIGH, MIN_CHECK_INTERVAL_MINUTES]
  · norm_num [computeCheckInterval, PRIORITY_THRESHOLD_HIGH, PRIORITY_THRESHOLD_LOW,
      MIN_CHECK_INTERVAL_MINUTES, MAX_CHECK_INTERVAL_MINUTES]

/-- C4: every recomputed `check_interval` lies within
[MIN_INTERVAL, MAX_INTERVAL] = [15, 1440] inclusive, the score-to-interval
mapping is monotonically non-increasing in the adjusted score, and the
lazily created default record's interval (360) also lies in the bounds. -/
theorem spec_C4_interval_bounds :
    (∀ (now : ℤ) (history : List HistoryEntry) (repo : String) (existing : PriorityRecord),
      MIN_CHECK_INTERVAL_MINUTES ≤ (updatePriorityRecord now history repo existing).check_interval ∧
      (updatePriorityRecord now history repo existing).check_interval ≤ MAX_CHECK_INTERVAL_MINUTES)
    ∧ (∀ s₁ s₂ : ℚ, s₁ ≤ s₂ → computeCheckInterval s₂ ≤ computeCheckInterval s₁)
    ∧ MIN_CHECK_INTERVAL_MINUTES = 15 ∧ MAX_CHECK_INTERVAL_MINUTES = 1440
    ∧ createDefaultPriority.check_interval = 360
    ∧ MIN_CHECK_INTERVAL_MINUTES ≤ createDefaultPriority.check_interval
    ∧ createDefaultPriority.check_interval ≤ MAX_CHECK_INTERVAL_MINUTES := by
  refine ⟨?_, fun s₁ s₂ h => computeCheckInterval_anti h, by norm_num [MIN_CHECK_INTERVAL_MINUTES],
    by norm_num [MAX_CHECK_INTERVAL_MINUTES],
    by norm_num [createDefaultPriority, DEFAULT_CHECK_INTERVAL_MINUTES],
    by norm_num [createDefaultPriority, DEFAULT_CHECK_INTERVAL_MINUTES, MIN_CHECK_INTERVAL_MINUTES],
    by norm_num [createDefaultPriority, DEFAULT_CHECK_INTERVAL_MINUTES, MAX_CHECK_INTERVAL_MINUTES]⟩
  intro now history repo existing
  simp only [updatePriorityRecord]
  exact ⟨computeCheckInterval_min_le _, computeCheckInterval_le_max _⟩

theorem spec_C4_witness :
    ((0:ℚ) ≤ 1) ∧ computeCheckInterval 1 ≤ computeCheckInterval 0 :=
  ⟨by norm_num, spec_C4_interval_bounds.2.1 0 1 (by norm_num)⟩

/-- C5: holding the history (hence the raw score) constant, increasing
`consecutive_failures` never decreases the recomputed `check_interval`. -/
theorem spec_C5_failure_backoff (now : ℤ) (history : List HistoryEntry)
    (repo : String) (existing : PriorityRecord) (cf₁ cf₂ : ℕ) (h : cf₁ ≤ cf₂) :
    (updatePriorityRecord now history repo
      { existing with consecutive_failures := cf₁ }).check_interval ≤
    (updatePriorityRecord now history repo
      { existing with consecutive_failures := cf₂ }).check_interval := by
  simp only [updatePriorityRecord]
  apply computeCheckInterval_anti
  unfold adjustedScoreOf
  apply max_le_max (le_refl 0)
  have hp : failurePenalty cf₁ ≤ failurePenalty cf₂ := by
    unfold failurePenalty
    apply min_le_min ?_ (le_refl _)
    apply mul_le_mul_of_nonneg_right ?_ (by norm_num)
    exact_mod_cast h
  linarith

theorem spec_C5_witness :
    (0 ≤ 7) ∧
    (updatePriorityRecord 0 [] "o/r"
      { createDefaultPriority with consecutive_failures := 0 }).check_interval ≤
    (updatePriorityRecord 0 [] "o/r"
      { createDefaultPriority with consecutive_failures := 7 }).check_interval :=
  ⟨by norm_num, spec_C5_failure_backoff 0 [] "o/r" createDefaultPriority 0 7 (by norm_num)⟩

/-- C6 counterexample: for the release with name "ab", tag "cd", empty
body and no assets, the keyword "bcd" is a substring of the lowercased
plain concatenation name+tag+body ("abcd"), yet `matches_filters` returns
false: the code joins the fields with spaces ("ab cd "), so the claimed
iff fails as stated. -/
theorem spec_C6_counterexample :
    matches_filters ⟨"cd", "ab", "", 0, []⟩ ["bcd"] = false ∧
    (pyLower "bcd").toList <:+: (claimSearchText ⟨"cd", "ab", "", 0, []⟩).toList := by
  constructor
  · decide
  · decide

/-- C6 (amended): `matches_filters R K` is true iff every keyword in K,
lowercased, is a substring of the lowercased **space-separated join** of
R's name, tag, body **and asset names** (logical AND, case-insensitive,
no tokenization); empty K always matches (the ∀ is vacuous). -/
theorem spec_C6_filter_containment (release : Release) (keywords : List String) :
    matches_filters release keywords = true ↔
      ∀ k ∈ keywords, (pyLower k).toList <:+: (searchText release).toList := by
  cases keywords with
  | nil => simp [matches_filters]
  | cons a l =>
    simp [matches_filters, List.all_eq_true, decide_eq_true_eq]

theorem spec_C6_witness :
    (matches_filters ⟨"v1.0", "miner", "adds CUDA support", 0, []⟩ ["cuda"] = true ↔
      ∀ k ∈ (["cuda"] : List String),
        (pyLower k).toList <:+:
          (searchText ⟨"v1.0", "miner", "adds CUDA support", 0, []⟩).toList) :=
  spec_C6_filter_containment _ _

/-- C7 counterexample: a repository whose record has `update_count = 2`
is recomputed by `update_priorities` against an empty history, after which
`update_count = 0 < 2` — the periodic recalculation overwrites
`update_count` with the windowed count, so `update_count` is not
monotonically non-decreasing and does not track all-time totals. -/
theorem spec_C7_counterexample :
    (getPriorityRecord (updatePriorities 0 ["o/r"] []
      (mapSet (fun _ => none) "o/r"
        { createDefaultPriority with update_count := 2 })) "o/r").update_count = 0 ∧
    (getPriorityRecord (mapSet (fun _ => none) "o/r"
      { createDefaultPriority with update_count := 2 }) "o/r").update_count = 2 ∧
    (0:ℕ) < 2 := by
  refine ⟨?_, ?_, by norm_num⟩
  · rfl
  · rfl

/-- C7 (amended): `record_update` increments `update_count` by one,
stamps `last_update` and resets `consecutive_failures`; `record_check`
leaves `update_count` unchanged; but the periodic recalculation
(`update_priorities`) **overwrites** `update_count` with the count of
history releases inside the trailing window, so after each recalculation
`update_count` reflects the windowed count, not the all-time total. -/
theorem spec_C7_update_count (r : PriorityRecord) (now : ℤ) :
    (recordUpdate r now).update_count = r.update_count + 1 ∧
    (recordUpdate r now).last_update = some now ∧
    (recordUpdate r now).consecutive_failures = 0 ∧
    (∀ (success : Bool) (rt : ℚ),
      (recordCheck r success rt now).update_count = r.update_count) ∧
    (∀ (now' : ℤ) (history : List HistoryEntry) (repo : String)
        (existing : PriorityRecord),
      (updatePriorityRecord now' history repo existing).update_count =
        windowCount now' history repo) := by
  refine ⟨rfl, rfl, rfl, ?_, fun _ _ _ _ => rfl⟩
  intro success rt
  cases success <;> simp [recordCheck]

/-- C8 counterexample: on a successful check recorded against a record
whose `average_response_time` is 0 (e.g. the default record) with sample
4, the code stores 4, not the claimed running average (0 + 4) / 2 = 2 —
the first sample bypasses the averaging. -/
theorem spec_C8_counterexample :
    (recordCheck createDefaultPriority true 4 0).average_response_time = 4 ∧
    (createDefaultPriority.average_response_time + 4) / 2 = 2 ∧ ((4:ℚ) ≠ 2) := by
  refine ⟨?_, ?_, by norm_num⟩
  · simp [recordCheck, createDefaultPriority]
  · simp [createDefaultPriority]
    norm_num

/-- C8 (amended): every `record_check` call increments `total_checks`
and stamps `last_check`; on success it resets `consecutive_failures` and
sets `average_response_time` to `(old + new) / 2` **when the old average
is positive** and to the new sample otherwise (first sample); on failure
it increments `consecutive_failures` and leaves the average unchanged;
it never modifies `priority_score`, `check_interval`, `update_count` or
`last_update`. -/
theorem spec_C8_record_check (r : PriorityRecord) (success : Bool) (rt : ℚ)
    (now : ℤ) :
    (recordCheck r success rt now).total_checks = r.total_checks + 1 ∧
    (recordCheck r success rt now).last_check = some now ∧
    (success = true →
      (recordCheck r success rt now).consecutive_failures = 0 ∧
      (recordCheck r success rt now).average_response_time =
        (if 0 < r.average_response_time then (r.average_response_time + rt) / 2
         else rt)) ∧
    (success = false →
      (recordCheck r success rt now).consecutive_failures =
        r.consecutive_failures + 1 ∧
      (recordCheck r success rt now).average_response_time =
        r.average_response_time) ∧
    (recordCheck r success rt now).priority_score = r.priority_score ∧
    (recordCheck r success rt now).check_interval = r.check_interval ∧
    (recordCheck r success rt now).update_count = r.update_count ∧
    (recordCheck r success rt now).last_update = r.last_update := by
  cases success <;> simp [recordCheck]

theorem spec_C8_witness :
    (recordCheck createDefaultPriority true 4 5).consecutive_failures = 0 ∧
    (recordCheck createDefaultPriority true 4 5).average_response_time = 4 := by
  have h := spec_C8_record_check createDefaultPriority true 4 5
  exact ⟨(h.2.2.1 rfl).1, by simpa [createDefaultPriority] using (h.2.2.1 rfl).2⟩

/-- C10: when every keyword passed to `set_filters` strips to the empty
string, the normalised list is empty and the filter store is returned
completely unchanged — a previously stored keyword list for the user is
retained, not overwritten or cleared. -/
theorem spec_C10_empty_keywords_noop (filters : List (String × List String))
    (user_id : String) (keywords : List String)
    (h : ∀ k ∈ keywords, pyStrip k = "") :
    setFilters filters user_id keywords = filters := by
  unfold setFilters
  have hf : (keywords.filter (fun k => !(pyStrip k == ""))) = [] := by
    apply List.filter_eq_nil_iff.mpr
    intro k hk
    simp [h k hk]
  simp [hf]

theorem spec_C10_witness :
    (∀ k ∈ (["  ", ""] : List String), pyStrip k = "") ∧
    setFilters [("5", ["cuda"])] "5" ["  ", ""] = [("5", ["cuda"])] :=
  ⟨by decide, spec_C10_empty_keywords_noop _ _ _ (by decide)⟩

end CheckGithub
